import Mathlib

/-!
Verification of the GPS/NMEA core of ry835ai.go (Stratux).

The Go source is shallowly embedded: Go strings are modelled as lists of
characters (NMEA traffic is ASCII, where Go's byte-wise and rune-wise views
coincide), machine integers are modelled as Nat / Int with explicit
wrap-around where a Go conversion can overflow, float32 values are modelled
as exact rationals, and the monotonic clock (stratuxClock) is an Int counting
nanoseconds, matching Go's time.Duration unit.  Fallible operations return
Option; an out-of-range slice index (a Go runtime panic) is modelled by the
whole computation returning none.  Logging, the serial port, the OS date
command and the data logger have no effect on the modelled state and are
elided.
-/

namespace Stratux

/-- One second of Go time.Duration, in nanoseconds. -/
def nsPerSec : Int := 1000000000

/-- Go conversion uint8(i) for an int value: wrap modulo 256. -/
def u8 (i : Int) : Nat := (i % 256).toNat

/-- Go conversion uint16(i) for an int value: wrap modulo 65536. -/
def u16ofInt (i : Int) : Nat := (i % 65536).toNat

/-- Go conversion int8(i) for an int value: two's-complement wrap. -/
def int8wrap (i : Int) : Int := (i + 128) % 256 - 128

/-- Go conversion int16(i) for an int value: two's-complement wrap. -/
def int16wrap (i : Int) : Int := (i + 32768) % 65536 - 32768

/-- Go conversion uint16(f) for a float value: truncation toward zero.
(The Go spec leaves out-of-range conversions unspecified; no verified claim
depends on the value of such a conversion.) -/
def qToUInt16 (q : ℚ) : Nat := if q < 0 then 0 else (⌊q⌋).toNat % 65536

/-- strings.Split: split a string at every occurrence of the separator.
The result is always non-empty. -/
def goSplit (sep : Char) : List Char → List (List Char)
  | [] => [[]]
  | c :: rest =>
    let r := goSplit sep rest
    if c = sep then [] :: r else (c :: r.headD []) :: r.tail

/-- Field access x[i] on a split sentence at a position the source has
guarded with a length check (always in range where used). -/
def fget (x : List (List Char)) (i : Nat) : List Char := x.getD i []

/-- Decimal value of a digit string (used below only on all-digit strings). -/
def digitsVal (l : List Char) : Nat := l.foldl (fun a c => 10 * a + (c.toNat - 48)) 0

/-- strconv.Atoi: optional sign followed by at least one decimal digit.
(Go also reports an error on 64-bit overflow; the claims below never depend
on inputs of that size.) -/
def goAtoi (s : List Char) : Option Int :=
  match s with
  | [] => none
  | '+' :: rest =>
    if !rest.isEmpty && rest.all Char.isDigit then some (digitsVal rest) else none
  | '-' :: rest =>
    if !rest.isEmpty && rest.all Char.isDigit then some (-(digitsVal rest : Int)) else none
  | _ => if s.all Char.isDigit then some (digitsVal s) else none

/-- Unsigned part of strconv.ParseFloat: digits with an optional fraction.
Modelled from the Go standard library, restricted to the plain decimal forms
digits, digits-point-digits and point-digits that NMEA receivers emit;
exponent, hexadecimal and infinity forms are not modelled. -/
def parseUnsignedFloat (s : List Char) : Option ℚ :=
  let intPart := s.takeWhile Char.isDigit
  let rest := s.dropWhile Char.isDigit
  match rest with
  | [] => if intPart.isEmpty then none else some (digitsVal intPart : ℚ)
  | '.' :: frac =>
    if !frac.all Char.isDigit then none
    else if intPart.isEmpty && frac.isEmpty then none
    else some ((digitsVal intPart : ℚ) + (digitsVal frac : ℚ) / ((10 : ℚ) ^ frac.length))
  | _ => none

/-- strconv.ParseFloat (bit size 32; values kept exact as rationals). -/
def goParseFloat (s : List Char) : Option ℚ :=
  match s with
  | '+' :: rest => parseUnsignedFloat rest
  | '-' :: rest => (parseUnsignedFloat rest).map Neg.neg
  | _ => parseUnsignedFloat s

/-- Value of one hexadecimal digit, upper or lower case. -/
def hexVal (c : Char) : Option Nat :=
  if '0' ≤ c ∧ c ≤ '9' then some (c.toNat - 48)
  else if 'a' ≤ c ∧ c ≤ 'f' then some (c.toNat - 87)
  else if 'A' ≤ c ∧ c ≤ 'F' then some (c.toNat - 55)
  else none

/-- strconv.ParseUint(s, 16, 8): hexadecimal parse of a byte value. -/
def goParseUintHex8 (s : List Char) : Option Nat :=
  if s.isEmpty then none
  else
    s.foldl
      (fun acc c =>
        match acc, hexVal c with
        | some a, some d => if 16 * a + d < 256 then some (16 * a + d) else none
        | _, _ => none)
      (some 0)

/-- Lower-case hexadecimal digit, as printed by fmt's %02x verb. -/
def hexChar (d : Nat) : Char :=
  if d < 10 then Char.ofNat (48 + d) else Char.ofNat (87 + d)

/-- fmt.Sprintf %02x of a byte value. -/
def sprintfHex2 (n : Nat) : List Char := [hexChar (n / 16), hexChar (n % 16)]

/-- XOR of the bytes of a string, the NMEA checksum. -/
def xorChecksum (s : List Char) : Nat := s.foldl (fun a c => a ^^^ c.toNat) 0

/-- makeNMEACmd: frame a command as a dollar sign, the payload, an asterisk,
the two-digit lower-case hex XOR checksum, and CR LF. -/
def makeNMEACmd (cmd : List Char) : List Char :=
  '$' :: (cmd ++ '*' :: (sprintfHex2 (xorChecksum cmd) ++ ['\x0d', '\x0a']))

/-- validateNMEAChecksum: checks the framing and the XOR checksum and returns
the payload between the dollar sign and the first asterisk.  The Go function
returns a diagnostic message in the failure cases; only the boolean is ever
consumed by the caller, so the message text is elided here. -/
def validateNMEAChecksum (s : List Char) : List Char × Bool :=
  if ¬ (s.head? = some '$' ∧ '*' ∈ s) then ([], false)
  else
    -- strings.TrimPrefix(s, "$"): the prefix check above has succeeded.
    let parts := goSplit '*' s.tail
    let sOut := fget parts 0
    let sCs := fget parts 1
    if sCs.length < 2 then ([], false)
    else
      match goParseUintHex8 (sCs.take 2) with
      | none => ([], false)
      | some cs =>
        if xorChecksum sOut ≠ cs then ([], false) else (sOut, true)

/-- chksumUBX: Fletcher-8 checksum, both accumulators wrapping modulo 256. -/
def chksumUBX (msg : List Nat) : Nat × Nat :=
  msg.foldl (fun r b => ((r.1 + b) % 256, (r.2 + ((r.1 + b) % 256)) % 256)) (0, 0)

/-- makeUBXCFG: the UBX frame 0xB5 0x62 class id len_lo len_hi payload ck_a ck_b,
with the checksum computed over the bytes from the class byte onward. -/
def makeUBXCFG (cls id msglen : Nat) (msg : List Nat) : List Nat :=
  let ret := [0xB5, 0x62, cls, id, msglen % 256, (msglen / 256) % 256] ++ msg
  let chk := chksumUBX (ret.drop 2)
  ret ++ [chk.1, chk.2]

/-- The bytes of a UBX frame between the sync bytes and the checksum bytes. -/
def unframeUBX (l : List Nat) : List Nat := ((l.drop 2).dropLast).dropLast

/-- The last two bytes of a UBX frame. -/
def checksumBytesUBX (l : List Nat) : Nat × Nat :=
  (l.getD (l.length - 2) 0, l.getD (l.length - 1) 0)

/-- calculateNACp: horizontal 95 percent accuracy to NACp class. -/
def calculateNACp (accuracy : ℚ) : Nat :=
  if accuracy < 3 then 11
  else if accuracy < 10 then 10
  else if accuracy < 30 then 9
  else if accuracy < 92.6 then 8
  else if accuracy < 185.2 then 7
  else if accuracy < 555.6 then 6
  else 0

/-- Satellite type constants. -/
def SAT_TYPE_UNKNOWN : Nat := 0

/-- GPS satellite family. -/
def SAT_TYPE_GPS : Nat := 1

/-- GLONASS satellite family. -/
def SAT_TYPE_GLONASS : Nat := 2

/-- SBAS satellite family. -/
def SAT_TYPE_SBAS : Nat := 10

/-- SatelliteInfo: one entry of the satellite constellation map.  The Go
field Type is renamed SatType (Type is reserved in Lean). -/
structure SatelliteInfo where
  SatelliteNMEA : Nat      -- uint8
  SatelliteID : List Char
  Elevation : Int          -- int16
  Azimuth : Int            -- int16
  Signal : Int             -- int8
  SatType : Nat            -- uint8
  TimeLastSolution : Int
  TimeLastSeen : Int
  TimeLastTracked : Int
  InSolution : Bool
deriving DecidableEq, Repr

/-- The zero value a fresh Go SatelliteInfo struct has before its fields are
assigned. -/
def SatelliteInfo.zero : SatelliteInfo :=
  { SatelliteNMEA := 0, SatelliteID := [], Elevation := 0, Azimuth := 0,
    Signal := 0, SatType := 0, TimeLastSolution := 0, TimeLastSeen := 0,
    TimeLastTracked := 0, InSolution := false }

/-- The GPS sub-record of SituationData (the attitude sub-record and the two
mutexes play no part in the verified claims and are elided). -/
structure SituationData where
  LastFixSinceMidnightUTC : ℚ
  Lat : ℚ
  Lng : ℚ
  Quality : Nat            -- uint8
  HeightAboveEllipsoid : ℚ
  GeoidSep : ℚ
  Satellites : Nat         -- uint16
  SatellitesTracked : Nat  -- uint16
  SatellitesSeen : Nat     -- uint16
  Accuracy : ℚ
  NACp : Nat               -- uint8
  Alt : ℚ
  AccuracyVert : ℚ
  GPSVertVel : ℚ
  LastFixLocalTime : Int
  TrueCourse : ℚ
  GroundSpeed : Nat        -- uint16
  LastGroundTrackTime : Int
  GPSTime : Int            -- opaque encoding of the parsed wall-clock time
  LastGPSTimeTime : Int
  LastValidNMEAMessageTime : Int
  LastValidNMEAMessage : List Char
deriving DecidableEq, Repr

/-- The mutable state processNMEALine operates on: the process-wide
mySituation record and the Satellites map (modelled as an association list
with the insertion behaviour of a Go map). -/
structure GpsState where
  situation : SituationData
  satellites : List (List Char × SatelliteInfo)
deriving DecidableEq, Repr

/-- Go map read: Satellites[k]. -/
def mapGet : List (List Char × SatelliteInfo) → List Char → Option SatelliteInfo
  | [], _ => none
  | (k', v) :: rest, k => if k' = k then some v else mapGet rest k

/-- Go map write: Satellites[k] = v. -/
def mapInsert : List (List Char × SatelliteInfo) → List Char → SatelliteInfo →
    List (List Char × SatelliteInfo)
  | [], k, v => [(k, v)]
  | (k', v') :: rest, k, v =>
    if k' = k then (k, v) :: rest else (k', v') :: mapInsert rest k v

/-- One entry of updateConstellation's sweep: delete the entry if it has not
been tracked for more than 10 seconds, otherwise clear InSolution if its last
solution is more than 5 seconds old. -/
def ucEntry (now : Int) (e : List Char × SatelliteInfo) :
    Option (List Char × SatelliteInfo) :=
  if now - e.2.TimeLastTracked > 10 * nsPerSec then none
  else if now - e.2.TimeLastSolution > 5 * nsPerSec then
    some (e.1, { e.2 with InSolution := false })
  else some e

/-- updateConstellation: age out stale satellites and recompute the three
aggregate counters.  The counters are accumulated in uint8 variables in the
source and then widened to uint16, hence the modulo 256. -/
def updateConstellation (now : Int) (st : GpsState) : GpsState :=
  let m := st.satellites.filterMap (ucEntry now)
  { st with
    satellites := m,
    situation := { st.situation with
      Satellites := (m.filter (fun e => e.2.InSolution)).length % 256,
      SatellitesTracked := m.length % 256,
      SatellitesSeen := (m.filter (fun e => decide (0 < e.2.Signal))).length % 256 } }

/-- isGPSValid, with the process-wide inputs (the clock, the GPS_connected
flag and mySituation) passed explicitly; returns the boolean and the
possibly-updated situation. -/
def isGPSValid (now : Int) (gpsConnected : Bool) (sit : SituationData) :
    Bool × SituationData :=
  if now - sit.LastFixLocalTime < 15 * nsPerSec ∧ gpsConnected = true ∧ 0 < sit.Quality
  then (true, sit)
  else (false, { sit with Quality := 0, Satellites := 0 })

/-- fmt.Sprintf %d of an int. -/
def intToChars (i : Int) : List Char :=
  if i < 0 then '-' :: Nat.toDigits 10 i.natAbs else Nat.toDigits 10 i.toNat

/-- Satellite id classification used by the GSV handler: family constant and
map key. -/
def classifySat (sv : Int) : Nat × List Char :=
  if sv < 33 then (SAT_TYPE_GPS, 'G' :: intToChars sv)
  else if sv < 65 then (SAT_TYPE_SBAS, 'S' :: intToChars (sv + 87))
  else if sv < 97 then (SAT_TYPE_GLONASS, 'R' :: intToChars (sv - 64))
  else (SAT_TYPE_UNKNOWN, 'U' :: intToChars sv)

/-- Satellite id classification used by the GSA handler: additionally reports
whether the id is SBAS and whether it is GLONASS (the svSBAS and svGLONASS
flags of the source). -/
def classifySatGSA (sv : Int) : Nat × List Char × Bool × Bool :=
  if sv < 33 then (SAT_TYPE_GPS, 'G' :: intToChars sv, false, false)
  else if sv < 65 then (SAT_TYPE_SBAS, 'S' :: intToChars (sv + 87), true, false)
  else if sv < 97 then (SAT_TYPE_GLONASS, 'R' :: intToChars (sv - 64), false, true)
  else (SAT_TYPE_UNKNOWN, 'U' :: intToChars sv, false, false)

/-- Satellite id classification used by the PUBX,03 handler: it has an extra
branch mapping PRN-numbered SBAS ids 120-161 back to NMEA numbering, so it
also returns the possibly-adjusted id. -/
def classifySatPUBX03 (sv : Int) : Nat × List Char × Int :=
  if sv < 33 then (SAT_TYPE_GPS, 'G' :: intToChars sv, sv)
  else if sv < 65 then (SAT_TYPE_SBAS, 'S' :: intToChars (sv + 87), sv)
  else if sv < 97 then (SAT_TYPE_GLONASS, 'R' :: intToChars (sv - 64), sv)
  else if 120 ≤ sv ∧ sv < 162 then (SAT_TYPE_SBAS, 'S' :: intToChars sv, sv - 87)
  else (SAT_TYPE_UNKNOWN, 'U' :: intToChars sv, sv)

/-- Modelled from the Go standard library time.Parse with layout
"020106 15:04:05.000", as applied to the string the source formats from the
date field and the already-parsed hour, minute and second: the parse succeeds
when the date is six digits with a plausible day and month and the time of
day is in range.  The returned instant is an opaque encoding; no verified
claim depends on it. -/
def goTimeParse (d : List Char) (hr mn : Int) (sec : ℚ) : Option Int :=
  if d.length = 6 ∧ d.all Char.isDigit then
    let day := digitsVal (d.take 2)
    let mon := digitsVal ((d.drop 2).take 2)
    if 1 ≤ day ∧ day ≤ 31 ∧ 1 ≤ mon ∧ mon ≤ 12 ∧
        0 ≤ hr ∧ hr < 24 ∧ 0 ≤ mn ∧ mn < 60 ∧ 0 ≤ sec ∧ sec < 60 then
      some ((digitsVal d : Int) * 86400 + hr * 3600 + mn * 60)
    else none
  else none

/-- Nav-status field of a PUBX,00 sentence to fix quality: D2/D3 are DGPS,
G2/G3 are GPS, DR/RK are dead reckoning; NF and everything else reject the
sentence (the source also notes quality 0 on the discarded scratch copy). -/
def pubx00Quality (f8 : List Char) : Option Nat :=
  if f8 = "D2".toList ∨ f8 = "D3".toList then some 2
  else if f8 = "G2".toList ∨ f8 = "G3".toList then some 1
  else if f8 = "DR".toList ∨ f8 = "RK".toList then some 6
  else none

/-- PUBX,00 scratch parse: the source's sequence of checks and scratch-copy
updates; none models an early return false (scratch discarded). -/
def pubx00Parse (now : Int) (x : List (List Char)) (tmp0 : SituationData) :
    Option SituationData :=
  match pubx00Quality (fget x 8) with
  | none => none
  | some q =>
  let tmp := { tmp0 with Quality := q }
  match goParseFloat (fget x 9) with
  | none => none
  | some hAcc =>
  let tmp := { tmp with Accuracy := hAcc * 2 }
  let tmp := { tmp with NACp := calculateNACp tmp.Accuracy }
  match goParseFloat (fget x 10) with
  | none => none
  | some vAcc =>
  let tmp := { tmp with AccuracyVert := vAcc * 2 }
  let f2 := fget x 2
  if f2.length < 8 then none else
  match goAtoi (f2.take 2), goAtoi ((f2.drop 2).take 2), goParseFloat (f2.drop 4) with
  | some hr, some mn, some sec =>
    let tmp := { tmp with LastFixSinceMidnightUTC := 3600 * (hr : ℚ) + 60 * (mn : ℚ) + sec }
    let f3 := fget x 3
    if f3.length < 10 then none else
    match goAtoi (f3.take 2), goParseFloat (f3.drop 2) with
    | some deg, some minf =>
      let tmp := { tmp with Lat := (deg : ℚ) + minf / 60 }
      let tmp := if fget x 4 = "S".toList then { tmp with Lat := -tmp.Lat } else tmp
      let f5 := fget x 5
      if f5.length < 11 then none else
      match goAtoi (f5.take 3), goParseFloat (f5.drop 3) with
      | some degl, some minfl =>
        let tmp := { tmp with Lng := (degl : ℚ) + minfl / 60 }
        let tmp := if fget x 6 = "W".toList then { tmp with Lng := -tmp.Lng } else tmp
        match goParseFloat (fget x 7) with
        | none => none
        | some hae =>
        let tmp := { tmp with
          HeightAboveEllipsoid := hae * 3.28084,
          Alt := hae * 3.28084 - tmp.GeoidSep }
        let tmp := { tmp with LastFixLocalTime := now }
        match goParseFloat (fget x 11) with
        | none => none
        | some gs0 =>
        let gs := gs0 * 0.540003
        let tmp := { tmp with GroundSpeed := qToUInt16 gs }
        match goParseFloat (fget x 12) with
        | none => none
        | some tc =>
        let tmp := if gs > 3 then { tmp with TrueCourse := tc } else tmp
        let tmp := { tmp with LastGroundTrackTime := now }
        match goParseFloat (fget x 13) with
        | none => none
        | some vv =>
        let tmp := { tmp with GPSVertVel := vv * (-3.28084) }
        match goAtoi (fget x 18) with
        | none => none
        | some sat =>
        some { tmp with Satellites := u16ofInt sat }
      | _, _ => none
    | _, _ => none
  | _, _, _ => none

/-- PUBX,00 position handler: all updates go to a scratch copy of the
situation which is committed only when every parse step succeeds. -/
def handlePUBX00 (now : Int) (x : List (List Char)) (st : GpsState) :
    Bool × GpsState :=
  if x.length < 20 then (false, st) else
  match pubx00Parse now x st.situation with
  | none => (false, st)
  | some tmp => (true, { st with situation := tmp })

/-- One satellite record of a PUBX,03 sentence (the body of the source's
satellite iteration loop, after the id has been parsed and classified). -/
def pubx03MakeSat (now : Int) (prior : Option SatelliteInfo) (sv : Int)
    (ty : Nat) (key stS azS elS cnoS : List Char) : SatelliteInfo :=
  let base :=
    match prior with
    | some v => v
    | none => { SatelliteInfo.zero with SatelliteID := key, SatelliteNMEA := u8 sv, SatType := ty }
  let s := { base with TimeLastTracked := now }
  let elev := match goAtoi elS with | none => (-999 : Int) | some e => e
  let s := { s with Elevation := int16wrap elev }
  let az := match goAtoi azS with | none => (-999 : Int) | some a => a
  let s := { s with Azimuth := int16wrap az }
  let p :=
    match goAtoi cnoS with
    | none => ((-99 : Int), s)
    | some c => (c, if c > 0 then { s with TimeLastSeen := now } else s)
  let s := { p.2 with Signal := int8wrap p.1 }
  if stS = "U".toList then { s with InSolution := true, TimeLastSolution := now }
  else if stS = "e".toList then { s with InSolution := false }
  else { s with InSolution := false }

/-- PUBX,03 satellite iteration loop: k records remain, the next starts at
repeated-block index i.  A failing id parse returns false with the satellites
processed so far already committed. -/
def pubx03Loop (now : Int) (x : List (List Char)) :
    Nat → Nat → GpsState → Bool × GpsState
  | 0, _, st => (true, st)
  | Nat.succ k, i, st =>
    match goAtoi (fget x (3 + 6 * i)) with
    | none => (false, st)
    | some sv =>
      let c := classifySatPUBX03 sv
      let r := pubx03MakeSat now (mapGet st.satellites c.2.1) c.2.2 c.1 c.2.1
        (fget x (4 + 6 * i)) (fget x (5 + 6 * i)) (fget x (6 + 6 * i)) (fget x (7 + 6 * i))
      let st' := updateConstellation now
        { st with satellites := mapInsert st.satellites r.SatelliteID r }
      pubx03Loop now x k (i + 1) st'

/-- PUBX,03 satellite status handler.  Note that SatellitesTracked is written
to the live situation before the per-satellite loop runs. -/
def handlePUBX03 (now : Int) (x : List (List Char)) (st : GpsState) :
    Bool × GpsState :=
  if x.length < 3 then (false, st) else
  match goAtoi (fget x 2) with
  | none => (false, st)
  | some satTracked =>
  if (x.length : Int) < satTracked * 6 + 3 then (false, st) else
  let st := { st with situation := { st.situation with SatellitesTracked := u16ofInt satTracked } }
  pubx03Loop now x satTracked.toNat 0 st

/-- PUBX,04 clock parse, after the unguarded read of field 5 has succeeded:
the situation is written only when the GPS week is in range and all of the
time parsing succeeds. -/
def pubx04Parse (now : Int) (x : List (List Char)) (wkS : List Char)
    (sit : SituationData) : Option SituationData :=
  match goAtoi wkS with
  | none => none
  | some wk =>
  if wk < 1877 ∨ 32767 ≤ wk then none else
  let f2 := fget x 2
  if f2.length < 7 then none else
  match goAtoi (f2.take 2), goAtoi ((f2.drop 2).take 2), goParseFloat (f2.drop 4) with
  | some hr, some mn, some sec =>
    let f3 := fget x 3
    if f3.length = 6 then
      match goTimeParse f3 hr mn sec with
      | some gt =>
        some { sit with
          LastGPSTimeTime := now,
          GPSTime := gt,
          LastFixSinceMidnightUTC := 3600 * (hr : ℚ) + 60 * (mn : ℚ) + sec }
      | none => none
    else none
  | _, _, _ => none

/-- PUBX,04 clock handler.  The source reads field 5 (the GPS week) before
any length check, so a sentence with fewer than six fields panics (none). -/
def handlePUBX04 (now : Int) (x : List (List Char)) (st : GpsState) :
    Option (Bool × GpsState) :=
  match x.get? 5 with
  | none => none
  | some wkS =>
  match pubx04Parse now x wkS st.situation with
  | none => some (false, st)
  | some sit => some (true, { st with situation := sit })

/-- VTG scratch parse. -/
def vtgParse (now : Int) (x : List (List Char)) (tmp0 : SituationData) :
    Option SituationData :=
  match goParseFloat (fget x 5) with
  | none => none
  | some gs =>
  let tmp := { tmp0 with GroundSpeed := qToUInt16 gs }
  match goParseFloat (fget x 1) with
  | none => none
  | some tc =>
  let tmp := if gs > 3 then { tmp with TrueCourse := tc } else tmp
  some { tmp with LastGroundTrackTime := now }

/-- GNVTG / GPVTG ground-track handler. -/
def handleVTG (now : Int) (x : List (List Char)) (st : GpsState) :
    Bool × GpsState :=
  if x.length < 9 then (false, st) else
  match vtgParse now x st.situation with
  | none => (false, st)
  | some tmp => (true, { st with situation := tmp })

/-- GGA scratch parse. -/
def ggaParse (now : Int) (x : List (List Char)) (tmp0 : SituationData) :
    Option SituationData :=
  match goAtoi (fget x 6) with
  | none => none
  | some q =>
  let tmp := { tmp0 with Quality := u8 q }
  let f1 := fget x 1
  if f1.length < 7 then none else
  match goAtoi (f1.take 2), goAtoi ((f1.drop 2).take 2), goParseFloat (f1.drop 4) with
  | some hr, some mn, some sec =>
    let tmp := { tmp with LastFixSinceMidnightUTC := 3600 * (hr : ℚ) + 60 * (mn : ℚ) + sec }
    let f2 := fget x 2
    if f2.length < 4 then none else
    match goAtoi (f2.take 2), goParseFloat (f2.drop 2) with
    | some deg, some minf =>
      let tmp := { tmp with Lat := (deg : ℚ) + minf / 60 }
      let tmp := if fget x 3 = "S".toList then { tmp with Lat := -tmp.Lat } else tmp
      let f4 := fget x 4
      if f4.length < 5 then none else
      match goAtoi (f4.take 3), goParseFloat (f4.drop 3) with
      | some degl, some minfl =>
        let tmp := { tmp with Lng := (degl : ℚ) + minfl / 60 }
        let tmp := if fget x 5 = "W".toList then { tmp with Lng := -tmp.Lng } else tmp
        match goParseFloat (fget x 9) with
        | none => none
        | some alt =>
        let tmp := { tmp with Alt := alt * 3.28084 }
        match goParseFloat (fget x 11) with
        | none => none
        | some gsep =>
        let tmp := { tmp with GeoidSep := gsep * 3.28084 }
        let tmp := { tmp with HeightAboveEllipsoid := tmp.GeoidSep + tmp.Alt }
        some { tmp with LastFixLocalTime := now }
      | _, _ => none
    | _, _ => none
  | _, _, _ => none

/-- GNGGA / GPGGA position-fix handler. -/
def handleGGA (now : Int) (x : List (List Char)) (st : GpsState) :
    Bool × GpsState :=
  if x.length < 15 then (false, st) else
  match ggaParse now x st.situation with
  | none => (false, st)
  | some tmp => (true, { st with situation := tmp })

/-- RMC scratch parse. -/
def rmcParse (now : Int) (x : List (List Char)) (tmp0 : SituationData) :
    Option SituationData :=
  if ¬ (fget x 2 = "A".toList) then none else
  let f1 := fget x 1
  if f1.length < 7 then none else
  match goAtoi (f1.take 2), goAtoi ((f1.drop 2).take 2), goParseFloat (f1.drop 4) with
  | some hr, some mn, some sec =>
    let tmp := { tmp0 with LastFixSinceMidnightUTC := 3600 * (hr : ℚ) + 60 * (mn : ℚ) + sec }
    let f9 := fget x 9
    let tmp :=
      if f9.length = 6 then
        match goTimeParse f9 hr mn sec with
        | some gt => { tmp with LastGPSTimeTime := now, GPSTime := gt }
        | none => tmp
      else tmp
    let f3 := fget x 3
    if f3.length < 4 then none else
    match goAtoi (f3.take 2), goParseFloat (f3.drop 2) with
    | some deg, some minf =>
      let tmp := { tmp with Lat := (deg : ℚ) + minf / 60 }
      let tmp := if fget x 4 = "S".toList then { tmp with Lat := -tmp.Lat } else tmp
      let f5 := fget x 5
      if f5.length < 5 then none else
      match goAtoi (f5.take 3), goParseFloat (f5.drop 3) with
      | some degl, some minfl =>
        let tmp := { tmp with Lng := (degl : ℚ) + minfl / 60 }
        let tmp := if fget x 6 = "W".toList then { tmp with Lng := -tmp.Lng } else tmp
        let tmp := { tmp with LastFixLocalTime := now }
        match goParseFloat (fget x 7) with
        | none => none
        | some gs =>
        let tmp := { tmp with GroundSpeed := qToUInt16 gs }
        match goParseFloat (fget x 8) with
        | none => none
        | some tc =>
        let tmp := if gs > 3 then { tmp with TrueCourse := tc } else tmp
        some { tmp with LastGroundTrackTime := now }
      | _, _ => none
    | _, _ => none
  | _, _, _ => none

/-- GNRMC / GPRMC handler. -/
def handleRMC (now : Int) (x : List (List Char)) (st : GpsState) :
    Bool × GpsState :=
  if x.length < 11 then (false, st) else
  match rmcParse now x st.situation with
  | none => (false, st)
  | some tmp => (true, { st with situation := tmp })

/-- One candidate satellite id of a GSA sentence (fields 3-14): on a
successful id parse, upsert the satellite as in-solution and run the
constellation maintenance; the accumulator carries the in-message count, the
svSBAS and svGLONASS flags and the live state. -/
def gsaProcessSat (now : Int) (svS : List Char)
    (acc : Nat × Bool × Bool × GpsState) : Nat × Bool × Bool × GpsState :=
  match goAtoi svS with
  | none => acc
  | some sv =>
    let c := classifySatGSA sv
    let st := acc.2.2.2
    let base :=
      match mapGet st.satellites c.2.1 with
      | some v => v
      | none => { SatelliteInfo.zero with SatelliteID := c.2.1, SatelliteNMEA := u8 sv, SatType := c.1 }
    let r := { base with
      InSolution := true,
      TimeLastSolution := now,
      TimeLastSeen := now,
      TimeLastTracked := now }
    let st' := updateConstellation now
      { st with satellites := mapInsert st.satellites r.SatelliteID r }
    (acc.1 + 1, acc.2.1 || c.2.2.1, acc.2.2.1 || c.2.2.2, st')

/-- The GSA handler's iteration over fields 3-14. -/
def gsaLoop (now : Int) : List (List Char) → (Nat × Bool × Bool × GpsState) →
    Nat × Bool × Bool × GpsState
  | [], acc => acc
  | s :: rest, acc => gsaLoop now rest (gsaProcessSat now s acc)

/-- The satellite-count update step of the GSA handler. -/
def gsaCountUpdate (sat : Nat) (svSBAS svGLONASS : Bool) (tmp : SituationData) :
    SituationData :=
  if sat < 12 ∨ tmp.Satellites < 13 then
    -- Satellites := uint16(sat), then incremented when quality is 2 and the
    -- message held neither an SBAS nor a GLONASS id (the write to Satellites
    -- does not affect the Quality the condition reads).
    if tmp.Quality = 2 ∧ svSBAS = false ∧ svGLONASS = false then
      { tmp with Satellites := ((sat % 65536) + 1) % 65536 }
    else { tmp with Satellites := sat % 65536 }
  else tmp

/-- The scratch-copy tail of the GSA handler: the satellite-count update and
the HDOP / VDOP accuracy fields. -/
def gsaFinish (sat : Nat) (svSBAS svGLONASS : Bool) (x : List (List Char))
    (tmp0 : SituationData) : Option SituationData :=
  let tmp := gsaCountUpdate sat svSBAS svGLONASS tmp0
  match goParseFloat (fget x 16) with
  | none => none
  | some hdop =>
  let tmp :=
    if tmp.Quality = 2 then { tmp with Accuracy := hdop * 4 }
    else { tmp with Accuracy := hdop * 8 }
  let tmp := { tmp with NACp := calculateNACp tmp.Accuracy }
  match goParseFloat (fget x 17) with
  | none => none
  | some vdop =>
  some { tmp with AccuracyVert := vdop * 5 }

/-- GNGSA / GPGSA handler.  The per-satellite upserts act on the live state;
the counter and accuracy updates act on the scratch copy taken at entry and
are committed only when both DOP fields parse. -/
def handleGSA (now : Int) (x : List (List Char)) (st : GpsState) :
    Bool × GpsState :=
  if x.length < 18 then (false, st) else
  if fget x 2 = [] ∨ fget x 2 = "1".toList then (false, st) else
  let r := gsaLoop now ((x.drop 3).take 12) (0, false, false, st)
  match gsaFinish r.1 r.2.1 r.2.2.1 x st.situation with
  | none => (false, r.2.2.2)
  | some tmp => (true, { r.2.2.2 with situation := tmp })

/-- The SBAS-in-solution heuristic at the end of the GSV handler's
per-satellite block: only applied to SBAS satellites; a DGPS fix with signal
above 16 marks the satellite in-solution; a non-DGPS fix clears the flag; a
DGPS fix with signal at most 16 leaves the record as it is. -/
def gsvSbasAdjust (now : Int) (quality : Nat) (s : SatelliteInfo) : SatelliteInfo :=
  if s.SatType = SAT_TYPE_SBAS then
    if quality = 2 then
      if s.Signal > 16 then { s with InSolution := true, TimeLastSolution := now }
      else s
    else { s with InSolution := false }
  else s

/-- One satellite record of a GSV sentence (the body of the source's loop
after the id has been parsed and classified): elevation and azimuth default
to -999 on a blank field, a blank signal becomes -99 and clears InSolution,
signals above 127 are clamped, and the SBAS heuristic is applied last. -/
def gsvMakeSat (now : Int) (quality : Nat) (prior : Option SatelliteInfo)
    (sv : Int) (ty : Nat) (key elS azS cnoS : List Char) : SatelliteInfo :=
  let base :=
    match prior with
    | some v => v
    | none => { SatelliteInfo.zero with SatelliteID := key, SatelliteNMEA := u8 sv, SatType := ty }
  let s := { base with TimeLastTracked := now }
  let elev := match goAtoi elS with | none => (-999 : Int) | some e => e
  let s := { s with Elevation := int16wrap elev }
  let az := match goAtoi azS with | none => (-999 : Int) | some a => a
  let s := { s with Azimuth := int16wrap az }
  let p :=
    match goAtoi cnoS with
    | none => ((-99 : Int), { s with InSolution := false })
    | some c => (c, if c > 0 then { s with TimeLastSeen := now } else s)
  let cno := if p.1 > 127 then (127 : Int) else p.1
  let s := { p.2 with Signal := int8wrap cno }
  gsvSbasAdjust now quality s

/-- One satellite block of a GSV sentence, from the id field on. -/
def gsvProcessSat (now : Int) (svS elS azS cnoS : List Char) (st : GpsState) :
    Option GpsState :=
  match goAtoi svS with
  | none => none
  | some sv =>
    let c := classifySat sv
    let r := gsvMakeSat now st.situation.Quality (mapGet st.satellites c.2) sv c.1 c.2
      elS azS cnoS
    some (updateConstellation now
      { st with satellites := mapInsert st.satellites r.SatelliteID r })

/-- The GSV handler's iteration over its four-field satellite blocks. -/
def gsvLoop (now : Int) (x : List (List Char)) :
    Nat → Nat → GpsState → Bool × GpsState
  | 0, _, st => (true, st)
  | Nat.succ k, i, st =>
    match gsvProcessSat now (fget x (4 + 4 * i)) (fget x (5 + 4 * i))
        (fget x (6 + 4 * i)) (fget x (7 + 4 * i)) st with
    | none => (false, st)
    | some st' => gsvLoop now x k (i + 1) st'

/-- GPGSV / GLGSV handler.  The source parses field 2 twice, once as the
message count and once as the message index; both reads are mirrored. -/
def handleGSV (now : Int) (x : List (List Char)) (st : GpsState) :
    Bool × GpsState :=
  if x.length < 4 then (false, st) else
  match goAtoi (fget x 2) with
  | none => (false, st)
  | some _msgNum =>
  match goAtoi (fget x 2) with
  | none => (false, st)
  | some _msgIndex =>
  gsvLoop now x ((x.length - 4) / 4) 0 st

/-- Record of the liveness fields the parser writes for every
checksum-valid sentence before dispatching. -/
def setLastValid (now : Int) (l : List Char) (st : GpsState) : GpsState :=
  { st with situation := { st.situation with
      LastValidNMEAMessageTime := now, LastValidNMEAMessage := l } }

/-- Dispatch of a checksum-valid, comma-split sentence on its first field.
The result is none when the Go code would panic with an out-of-range
index. -/
def dispatchNMEA (now : Int) (x : List (List Char)) (st : GpsState) :
    Option (Bool × GpsState) :=
  if fget x 0 = "PUBX".toList then
    match x.get? 1 with
    | none => none
    | some f1 =>
      if f1 = "00".toList then some (handlePUBX00 now x st)
      else if f1 = "03".toList then some (handlePUBX03 now x st)
      else if f1 = "04".toList then handlePUBX04 now x st
      else some (false, st)
  else if fget x 0 = "GNVTG".toList ∨ fget x 0 = "GPVTG".toList then
    some (handleVTG now x st)
  else if fget x 0 = "GNGGA".toList ∨ fget x 0 = "GPGGA".toList then
    some (handleGGA now x st)
  else if fget x 0 = "GNRMC".toList ∨ fget x 0 = "GPRMC".toList then
    some (handleRMC now x st)
  else if fget x 0 = "GNGSA".toList ∨ fget x 0 = "GPGSA".toList then
    some (handleGSA now x st)
  else if fget x 0 = "GPGSV".toList ∨ fget x 0 = "GLGSV".toList then
    some (handleGSV now x st)
  else some (false, st)

/-- processNMEALine: validate the checksum, record the liveness fields, and
dispatch on the first field. -/
def processNMEALine (now : Int) (l : List Char) (st : GpsState) :
    Option (Bool × GpsState) :=
  match validateNMEAChecksum l with
  | (_, false) => some (false, st)
  | (lValid, true) => dispatchNMEA now (goSplit ',' lValid) (setLastValid now l st)

/-- An all-zero situation record, the base of the concrete states below. -/
def sit0 : SituationData :=
  { LastFixSinceMidnightUTC := 0, Lat := 0, Lng := 0, Quality := 0,
    HeightAboveEllipsoid := 0, GeoidSep := 0, Satellites := 0,
    SatellitesTracked := 0, SatellitesSeen := 0, Accuracy := 0, NACp := 0,
    Alt := 0, AccuracyVert := 0, GPSVertVel := 0, LastFixLocalTime := 0,
    TrueCourse := 0, GroundSpeed := 0, LastGroundTrackTime := 0, GPSTime := 0,
    LastGPSTimeTime := 0, LastValidNMEAMessageTime := 0,
    LastValidNMEAMessage := [] }

/-- Base state: all-zero situation, empty satellite map. -/
def st0 : GpsState := { situation := sit0, satellites := [] }

/-- A checksum-valid PUBX,03 sentence reporting one tracked satellite whose
satellite-number field (ZZ) fails the numeric parse. -/
def c1Line : List Char := "$PUBX,03,1,ZZ,U,045,12,33,10*4b".toList

/-- A checksum-valid GSA sentence with seven GPS ids and one GLONASS id
(NMEA 65) in fields 3-14, and no SBAS id. -/
def c2Line : List Char :=
  "$GPGSA,A,3,01,02,03,04,05,06,07,65,,,,,1.5,1.2,1.0*37".toList

/-- Prior state for the GSA counterexample: DGPS fix quality, five satellites
in solution and five tracked. -/
def c2State : GpsState :=
  { situation := { sit0 with Quality := 2, Satellites := 5, SatellitesTracked := 5 },
    satellites := [] }

/-- An SBAS satellite record (NMEA id 33, PRN 120) currently in solution. -/
def satS120 : SatelliteInfo :=
  { SatelliteNMEA := 33, SatelliteID := "S120".toList, Elevation := 45,
    Azimuth := 120, Signal := 30, SatType := SAT_TYPE_SBAS,
    TimeLastSolution := 0, TimeLastSeen := 0, TimeLastTracked := 0,
    InSolution := true }

/-- Prior state for the GSV counterexample: DGPS fix quality and the SBAS
satellite S120 in solution. -/
def c5State : GpsState :=
  { situation := { sit0 with Quality := 2 },
    satellites := [("S120".toList, satS120)] }

/-- A checksum-valid GSV sentence reporting SBAS satellite NMEA 33 with
signal strength 10 (at most 16). -/
def c5Line : List Char := "$GPGSV,1,1,01,33,45,120,10*4b".toList

/-- A checksum-valid PUBX,03 sentence reporting GPS satellite 5 with a wire
signal strength of 128. -/
def c6Line : List Char := "$PUBX,03,1,05,U,045,12,128,10*75".toList

/-- A satellite map with 256 fresh entries under distinct keys. -/
def c4BigSats : List (List Char × SatelliteInfo) :=
  (List.range 256).map (fun n => ('U' :: intToChars (100 + n), SatelliteInfo.zero))

/-- A state whose satellite map holds 256 fresh entries. -/
def c4BigState : GpsState := { situation := sit0, satellites := c4BigSats }

/-- The situation record with the satellite counters and the NMEA liveness
fields zeroed: two situations agree on every other field exactly when their
cores are equal. -/
def core (a : SituationData) : SituationData :=
  { a with
    Satellites := 0, SatellitesTracked := 0, SatellitesSeen := 0,
    LastValidNMEAMessageTime := 0, LastValidNMEAMessage := [] }

/-- Agreement on every situation field except Satellites, SatellitesTracked,
SatellitesSeen, LastValidNMEAMessageTime and LastValidNMEAMessage. -/
def coreEq (a b : SituationData) : Prop := core a = core b

/-! ### Helper lemmas -/

theorem checksumBytesUBX_append (l : List Nat) (a b : Nat) :
    checksumBytesUBX (l ++ [a, b]) = (a, b) := by
  unfold checksumBytesUBX
  induction l with
  | nil => rfl
  | cons x xs ih =>
    simpa [List.getD, Nat.succ_sub_one] using ih

theorem dropLast_append_two (l : List α) (a b : α) :
    (((l ++ [a, b]).dropLast).dropLast) = l := by
  have h : l ++ [a, b] = (l ++ [a]) ++ [b] := by simp
  rw [h, List.dropLast_concat, List.dropLast_concat]

/-! ### Claim theorems -/

/-- C7: calculateNACp is a pure function of horizontal 95 percent accuracy
given by the banded table (11 below 3 m, 10 below 10 m, 9 below 30 m, 8
below 92.6 m, 7 below 185.2 m, 6 below 555.6 m, otherwise 0), and an
accuracy exactly at a table boundary maps to the lower class:
calculateNACp 3 = 10. -/
theorem C7_calculateNACp_table (a : ℚ) :
    (a < 3 → calculateNACp a = 11) ∧
    (3 ≤ a → a < 10 → calculateNACp a = 10) ∧
    (10 ≤ a → a < 30 → calculateNACp a = 9) ∧
    (30 ≤ a → a < 92.6 → calculateNACp a = 8) ∧
    (92.6 ≤ a → a < 185.2 → calculateNACp a = 7) ∧
    (185.2 ≤ a → a < 555.6 → calculateNACp a = 6) ∧
    (555.6 ≤ a → calculateNACp a = 0) ∧
    calculateNACp 3 = 10 := by
  refine ⟨?_, ?_, ?_, ?_, ?_, ?_, ?_, by norm_num [calculateNACp]⟩ <;>
    intros <;> unfold calculateNACp <;> split_ifs <;> first | rfl | linarith

/-- C7 witness: the theorem applied at accuracy 1. -/
theorem C7_witness : calculateNACp 1 = 11 :=
  (C7_calculateNACp_table 1).1 (by norm_num)

/-- C3: isGPSValid returns true exactly when the last fix is less than 15
seconds old, the GPS-connected flag is set and the quality is positive; and
whenever it returns false it has zeroed Quality and Satellites, for every
prior situation. -/
theorem C3_isGPSValid_spec (now : Int) (conn : Bool) (sit : SituationData) :
    ((isGPSValid now conn sit).1 = true ↔
      (now - sit.LastFixLocalTime < 15 * nsPerSec ∧ conn = true ∧ 0 < sit.Quality)) ∧
    ((isGPSValid now conn sit).1 = false →
      (isGPSValid now conn sit).2.Quality = 0 ∧
      (isGPSValid now conn sit).2.Satellites = 0) := by
  unfold isGPSValid
  split <;> simp_all

/-- C3 witness: the theorem applied with the GPS-connected flag cleared. -/
theorem C3_witness :
    (isGPSValid 0 false sit0).2.Quality = 0 ∧ (isGPSValid 0 false sit0).2.Satellites = 0 :=
  (C3_isGPSValid_spec 0 false sit0).2 (by decide)

/-- C9: makeUBXCFG produces the frame 0xB5 0x62 class id len_lo len_hi
payload ck_a ck_b, and its last two bytes are the Fletcher-8 checksum of the
bytes from the class byte through the last payload byte. -/
theorem C9_ubxFrame (cls id msglen : Nat) (p : List Nat) :
    makeUBXCFG cls id msglen p =
      [0xB5, 0x62, cls, id, msglen % 256, (msglen / 256) % 256] ++ p ++
        [(chksumUBX ([cls, id, msglen % 256, (msglen / 256) % 256] ++ p)).1,
         (chksumUBX ([cls, id, msglen % 256, (msglen / 256) % 256] ++ p)).2] ∧
    chksumUBX (unframeUBX (makeUBXCFG cls id msglen p)) =
      checksumBytesUBX (makeUBXCFG cls id msglen p) := by
  constructor
  · simp [makeUBXCFG]
  · have h1 : makeUBXCFG cls id msglen p =
        (0xB5 :: 0x62 :: ([cls, id, msglen % 256, (msglen / 256) % 256] ++ p)) ++
          [(chksumUBX ([cls, id, msglen % 256, (msglen / 256) % 256] ++ p)).1,
           (chksumUBX ([cls, id, msglen % 256, (msglen / 256) % 256] ++ p)).2] := by
      simp [makeUBXCFG]
    rw [h1]
    unfold unframeUBX
    rw [show ((0xB5 :: 0x62 :: ([cls, id, msglen % 256, (msglen / 256) % 256] ++ p)) ++
          [(chksumUBX ([cls, id, msglen % 256, (msglen / 256) % 256] ++ p)).1,
           (chksumUBX ([cls, id, msglen % 256, (msglen / 256) % 256] ++ p)).2]).drop 2 =
        ([cls, id, msglen % 256, (msglen / 256) % 256] ++ p) ++
          [(chksumUBX ([cls, id, msglen % 256, (msglen / 256) % 256] ++ p)).1,
           (chksumUBX ([cls, id, msglen % 256, (msglen / 256) % 256] ++ p)).2] from rfl]
    rw [dropLast_append_two, checksumBytesUBX_append]

/-- C10: the parser panics (models to none) on a checksum-valid sentence
whose payload is exactly PUBX, where the dispatch reads field 1 of a
one-field split, and on a checksum-valid PUBX,04 sentence with two fields,
where the clock handler reads field 5 with no length check. -/
theorem C10_panics :
    processNMEALine 0 ("$PUBX*1f".toList) st0 = none ∧
    processNMEALine 0 ("$PUBX,04*37".toList) st0 = none := by
  constructor <;> rfl

/-- C1 counterexample: the checksum-valid PUBX,03 sentence c1Line passes the
length check for one tracked satellite, fails the satellite-number parse and
is rejected, yet SatellitesTracked has been changed from 0 to 1. -/
theorem C1_counterexample :
    (processNMEALine 0 c1Line st0).map
        (fun p => (p.1, p.2.situation.SatellitesTracked)) = some (false, 1) ∧
    st0.situation.SatellitesTracked = 0 := by
  constructor <;> rfl

/-- C2 counterexample: from a prior situation with Quality 2, five satellites
in solution and five tracked, the accepted GSA sentence c2Line carries eight
ids (seven GPS and one GLONASS, no SBAS), yet the Satellites counter becomes
8, not the 9 the claim requires, because the source's increment also demands
that no GLONASS id be present. -/
theorem C2_counterexample :
    c2State.situation.Quality = 2 ∧
    c2State.situation.SatellitesTracked = 5 ∧
    (processNMEALine 0 c2Line c2State).map
        (fun p => (p.1, p.2.situation.Satellites)) = some (true, 8) := by
  refine ⟨rfl, rfl, ?_⟩
  rfl

/-- C5 counterexample: with fix quality 2, the accepted GSV sentence c5Line
reports SBAS satellite S120 with signal 10 (at most 16), and its InSolution
flag remains true, not cleared as the claim requires. -/
theorem C5_counterexample :
    c5State.situation.Quality = 2 ∧
    (processNMEALine 0 c5Line c5State).map
        (fun p => (p.1, (mapGet p.2.satellites ("S120".toList)).map
          (fun r => (r.InSolution, r.Signal)))) = some (true, some (true, 10)) := by
  refine ⟨rfl, ?_⟩
  rfl

/-- C6 counterexample: the accepted PUBX,03 sentence c6Line reports GPS
satellite 5 with a wire signal of 128, and the stored Signal is -128 (the
int8 wrap of 128), not the clamped 127 the claim requires. -/
theorem C6_counterexample :
    (processNMEALine 0 c6Line st0).map
        (fun p => (p.1, (mapGet p.2.satellites ("G5".toList)).map
          (fun r => r.Signal))) = some (true, some (-128)) := by
  rfl

set_option maxRecDepth 8000 in
/-- C4 counterexample: on a map of 256 fresh entries, all 256 remain after
updateConstellation, but the SatellitesTracked counter - accumulated in a
uint8 - is 0, not 256. -/
theorem C4_counterexample :
    (updateConstellation 0 c4BigState).satellites.length = 256 ∧
    (updateConstellation 0 c4BigState).situation.SatellitesTracked = 0 := by
  constructor <;> decide

/-- C2 amended: in the GSA count-update step, when the in-message id count is
below 12 or the situation's in-solution Satellites counter is below 13, the
Satellites counter is set to the in-message count, incremented by one exactly
when quality is 2 and the message contained neither an SBAS nor a GLONASS
id; otherwise the step leaves the situation unchanged.  (The in-message count
never exceeds 12, since fields 3-14 are only twelve fields.) -/
theorem C2_amended_gsaCountUpdate (sat : Nat) (sb gl : Bool)
    (tmp : SituationData) (hs : sat ≤ 12) :
    ((sat < 12 ∨ tmp.Satellites < 13) →
      (gsaCountUpdate sat sb gl tmp).Satellites =
        (if tmp.Quality = 2 ∧ sb = false ∧ gl = false then sat + 1 else sat)) ∧
    (¬ (sat < 12 ∨ tmp.Satellites < 13) → gsaCountUpdate sat sb gl tmp = tmp) := by
  unfold gsaCountUpdate
  constructor
  · intro h
    rw [if_pos h]
    split_ifs with hq
    · show ((sat % 65536) + 1) % 65536 = sat + 1
      omega
    · show sat % 65536 = sat
      omega
  · intro h
    rw [if_neg h]

/-- C2 witness: the count-update applied to the all-zero situation with five
ids, one of them GLONASS. -/
theorem C2_witness : (gsaCountUpdate 5 false true sit0).Satellites = 5 := by
  have h := (C2_amended_gsaCountUpdate 5 false true sit0 (by decide)).1
    (Or.inl (by decide))
  rw [h]; decide

/-- C5 amended: for an SBAS satellite record processed by the GSV handler,
a DGPS fix (quality 2) with stored signal above 16 sets InSolution and
refreshes TimeLastSolution; a non-DGPS fix clears InSolution; a DGPS fix
with signal at most 16 leaves the record exactly as the preceding signal
processing produced it (in particular InSolution is not cleared). -/
theorem C5_amended_gsvSbasAdjust (now : Int) (q : Nat) (s : SatelliteInfo)
    (h : s.SatType = SAT_TYPE_SBAS) :
    (q = 2 → 16 < s.Signal →
      gsvSbasAdjust now q s = { s with InSolution := true, TimeLastSolution := now }) ∧
    (q ≠ 2 → (gsvSbasAdjust now q s).InSolution = false) ∧
    (q = 2 → s.Signal ≤ 16 → gsvSbasAdjust now q s = s) := by
  unfold gsvSbasAdjust
  refine ⟨?_, ?_, ?_⟩ <;> intros <;> split_ifs <;> first | rfl | omega | simp_all

/-- C5 witness: the adjustment applied to the in-solution SBAS record
satS120 under quality 1 clears the flag. -/
theorem C5_witness : (gsvSbasAdjust 0 1 satS120).InSolution = false :=
  (C5_amended_gsvSbasAdjust 0 1 satS120 rfl).2.1 (by decide)

/-- The SBAS heuristic never changes the stored signal strength. -/
theorem gsvSbasAdjust_Signal (now : Int) (q : Nat) (s : SatelliteInfo) :
    (gsvSbasAdjust now q s).Signal = s.Signal := by
  unfold gsvSbasAdjust
  split_ifs <;> rfl

/-- C6 amended: a satellite record written by the GSV handler stores -99 for
a blank signal field and the clamped value min(v, 127) for a parsed signal
v of at least 0 (so a wire signal of 128 or more stores 127); the PUBX,03
handler applies no clamp and stores the int8 wrap of the parsed value, so a
wire signal of 128 stores -128. -/
theorem C6_amended_signalRange :
    (∀ now q prior sv ty key elS azS cnoS v, goAtoi cnoS = some v → 0 ≤ v →
      (gsvMakeSat now q prior sv ty key elS azS cnoS).Signal =
        if 127 < v then 127 else v) ∧
    (∀ now q prior sv ty key elS azS cnoS, goAtoi cnoS = none →
      (gsvMakeSat now q prior sv ty key elS azS cnoS).Signal = -99) ∧
    (∀ now prior sv ty key stS azS elS cnoS v, goAtoi cnoS = some v →
      (pubx03MakeSat now prior sv ty key stS azS elS cnoS).Signal = int8wrap v) ∧
    int8wrap 128 = -128 := by
  refine ⟨?_, ?_, ?_, by decide⟩
  · intro now q prior sv ty key elS azS cnoS v hv hv0
    unfold gsvMakeSat
    rw [gsvSbasAdjust_Signal]
    simp only [hv]
    split_ifs with h127 h127' <;> first | (unfold int8wrap; omega) | omega
  · intro now q prior sv ty key elS azS cnoS hv
    unfold gsvMakeSat
    rw [gsvSbasAdjust_Signal]
    simp only [hv]
    decide
  · intro now prior sv ty key stS azS elS cnoS v hv
    unfold pubx03MakeSat
    simp only [hv]
    split_ifs <;> rfl

/-- C6 witness: a GSV record with wire signal 200 stores the clamp 127. -/
theorem C6_witness :
    (gsvMakeSat 0 2 none 33 SAT_TYPE_SBAS ("S120".toList) ("45".toList)
      ("120".toList) ("200".toList)).Signal = 127 := by
  have h := C6_amended_signalRange.1 0 2 none 33 SAT_TYPE_SBAS ("S120".toList)
    ("45".toList) ("120".toList) ("200".toList) 200 (by decide) (by decide)
  rw [h]; decide

/-- C4 amended: after updateConstellation, no remaining entry is more than
10 seconds past its last tracking, every remaining entry more than 5 seconds
past its last solution has InSolution cleared, and - provided fewer than 256
entries remain, so the uint8 accumulators do not wrap - the three counters
equal the number of remaining in-solution entries, the number of remaining
entries, and the number of remaining entries with positive signal. -/
theorem C4_amended_updateConstellation (now : Int) (st : GpsState) :
    (∀ e ∈ (updateConstellation now st).satellites,
      now - e.2.TimeLastTracked ≤ 10 * nsPerSec) ∧
    (∀ e ∈ (updateConstellation now st).satellites,
      5 * nsPerSec < now - e.2.TimeLastSolution → e.2.InSolution = false) ∧
    ((updateConstellation now st).satellites.length < 256 →
      (updateConstellation now st).situation.Satellites =
        ((updateConstellation now st).satellites.filter
          (fun e => e.2.InSolution)).length ∧
      (updateConstellation now st).situation.SatellitesTracked =
        (updateConstellation now st).satellites.length ∧
      (updateConstellation now st).situation.SatellitesSeen =
        ((updateConstellation now st).satellites.filter
          (fun e => decide (0 < e.2.Signal))).length) := by
  have hsat : (updateConstellation now st).satellites =
      st.satellites.filterMap (ucEntry now) := rfl
  refine ⟨?_, ?_, ?_⟩
  · intro e he
    rw [hsat] at he
    obtain ⟨a, _, hfa⟩ := List.mem_filterMap.mp he
    unfold ucEntry at hfa
    split_ifs at hfa with h10 h5
    · cases hfa
      show now - a.2.TimeLastTracked ≤ 10 * nsPerSec
      omega
    · cases hfa
      omega
  · intro e he hstale
    rw [hsat] at he
    obtain ⟨a, _, hfa⟩ := List.mem_filterMap.mp he
    unfold ucEntry at hfa
    split_ifs at hfa with h10 h5
    · cases hfa
      rfl
    · cases hfa
      exact absurd hstale (by omega)
  · intro hlen
    rw [hsat] at hlen
    refine ⟨?_, ?_, ?_⟩
    · show ((st.satellites.filterMap (ucEntry now)).filter
          (fun e => e.2.InSolution)).length % 256 = _
      rw [hsat]
      exact Nat.mod_eq_of_lt (lt_of_le_of_lt (List.length_filter_le _ _) hlen)
    · show (st.satellites.filterMap (ucEntry now)).length % 256 = _
      rw [hsat]
      exact Nat.mod_eq_of_lt hlen
    · show ((st.satellites.filterMap (ucEntry now)).filter
          (fun e => decide (0 < e.2.Signal))).length % 256 = _
      rw [hsat]
      exact Nat.mod_eq_of_lt (lt_of_le_of_lt (List.length_filter_le _ _) hlen)

/-- C4 witness: the counter clause applied to a two-entry map, one entry
tracked 11 seconds ago (deleted) and one fresh. -/
theorem C4_witness :
    (updateConstellation (11 * nsPerSec)
      { situation := sit0,
        satellites := [("G1".toList, SatelliteInfo.zero),
          ("G2".toList, { SatelliteInfo.zero with TimeLastTracked := 11 * nsPerSec })]
      }).situation.SatellitesTracked =
      (updateConstellation (11 * nsPerSec)
        { situation := sit0,
          satellites := [("G1".toList, SatelliteInfo.zero),
            ("G2".toList, { SatelliteInfo.zero with TimeLastTracked := 11 * nsPerSec })]
        }).satellites.length :=
  ((C4_amended_updateConstellation (11 * nsPerSec) _).2.2 (by decide)).2.1

/-- goSplit on a separator-free string yields that single string. -/
theorem goSplit_sep_notin (sep : Char) (l : List Char) (h : sep ∉ l) :
    goSplit sep l = [l] := by
  induction l with
  | nil => rfl
  | cons c cs ih =>
    have hc : ¬ c = sep := fun hcc => h (hcc ▸ List.mem_cons_self c cs)
    have hcs : sep ∉ cs := fun hm => h (List.mem_cons_of_mem _ hm)
    simp [goSplit, hc, ih hcs]

/-- goSplit of a separator-free prefix, the separator, and a remainder. -/
theorem goSplit_append (sep : Char) (X rest : List Char) (h : sep ∉ X) :
    goSplit sep (X ++ sep :: rest) = X :: goSplit sep rest := by
  induction X with
  | nil => simp [goSplit]
  | cons c cs ih =>
    have hc : ¬ c = sep := fun hcc => h (hcc ▸ List.mem_cons_self c cs)
    have hcs : sep ∉ cs := fun hm => h (List.mem_cons_of_mem _ hm)
    simp [goSplit, hc, ih hcs]

/-- hexVal inverts hexChar on digit values. -/
theorem hexVal_hexChar (d : Nat) (h : d < 16) : hexVal (hexChar d) = some d := by
  interval_cases d <;> decide

/-- hexChar never produces an asterisk. -/
theorem hexChar_ne_star (d : Nat) (h : d < 16) : hexChar d ≠ '*' := by
  interval_cases d <;> decide

/-- The asterisk does not occur in a two-digit hex rendering. -/
theorem star_notin_sprintfHex2 (n : Nat) (h : n < 256) : '*' ∉ sprintfHex2 n := by
  have h1 : n / 16 < 16 := by omega
  have h2 : n % 16 < 16 := by omega
  intro hm
  rcases List.mem_cons.mp hm with he | hm2
  · exact hexChar_ne_star (n / 16) h1 he.symm
  · rcases List.mem_cons.mp hm2 with he | hm3
    · exact hexChar_ne_star (n % 16) h2 he.symm
    · cases hm3

/-- XOR-accumulation of byte values stays below 256. -/
theorem foldl_xor_lt (l : List Char) (h : ∀ c ∈ l, c.toNat < 256) :
    ∀ a, a < 256 → l.foldl (fun a c => a ^^^ c.toNat) a < 256 := by
  induction l with
  | nil => intro a ha; simpa using ha
  | cons c cs ih =>
    intro a ha
    have hc : c.toNat < 256 := h c (List.mem_cons_self c cs)
    have hx : a ^^^ c.toNat < 256 := by
      have h256 : (256 : Nat) = 2 ^ 8 := by norm_num
      rw [h256] at ha hc ⊢
      exact Nat.xor_lt_two_pow ha hc
    exact ih (fun d hd => h d (List.mem_cons_of_mem _ hd)) _ hx

/-- The XOR checksum of a byte string is a byte value. -/
theorem xorChecksum_lt (X : List Char) (h : ∀ c ∈ X, c.toNat < 256) :
    xorChecksum X < 256 :=
  foldl_xor_lt X h 0 (by norm_num)

/-- Hex parsing inverts the two-digit hex rendering on byte values. -/
theorem goParseUintHex8_sprintfHex2 (n : Nat) (h : n < 256) :
    goParseUintHex8 (sprintfHex2 n) = some n := by
  interval_cases n <;> decide

/-- C8: for every ASCII payload containing neither a dollar sign nor an
asterisk, validating the framed command makeNMEACmd produces returns exactly
the payload with success. -/
theorem C8_roundTrip (X : List Char) (hA : ∀ c ∈ X, c.toNat < 128)
    (hd : '$' ∉ X) (hs : '*' ∉ X) :
    validateNMEAChecksum (makeNMEACmd X) = (X, true) := by
  have hb : ∀ c ∈ X, c.toNat < 256 := fun c hc => lt_trans (hA c hc) (by norm_num)
  have hlt : xorChecksum X < 256 := xorChecksum_lt X hb
  have hrest : '*' ∉ sprintfHex2 (xorChecksum X) ++ ['\x0d', '\x0a'] := by
    intro hm
    rcases List.mem_append.mp hm with hm1 | hm2
    · exact star_notin_sprintfHex2 _ hlt hm1
    · simp at hm2
  unfold makeNMEACmd validateNMEAChecksum
  have hcond : ¬ ¬ ((('$' :: (X ++ '*' :: (sprintfHex2 (xorChecksum X) ++
      ['\x0d', '\x0a']))).head? = some '$') ∧
      '*' ∈ '$' :: (X ++ '*' :: (sprintfHex2 (xorChecksum X) ++ ['\x0d', '\x0a']))) := by
    simp
  rw [if_neg hcond]
  simp only [List.tail_cons]
  rw [goSplit_append '*' X _ hs, goSplit_sep_notin '*' _ hrest]
  have hp0 : fget [X, sprintfHex2 (xorChecksum X) ++ ['\x0d', '\x0a']] 0 = X := rfl
  have hp1 : fget [X, sprintfHex2 (xorChecksum X) ++ ['\x0d', '\x0a']] 1 =
      sprintfHex2 (xorChecksum X) ++ ['\x0d', '\x0a'] := rfl
  rw [hp0, hp1]
  rw [if_neg (show ¬ (sprintfHex2 (xorChecksum X) ++ ['\x0d', '\x0a']).length < 2 by
    simp [sprintfHex2])]
  rw [show List.take 2 (sprintfHex2 (xorChecksum X) ++ ['\x0d', '\x0a']) =
      sprintfHex2 (xorChecksum X) from by simp [sprintfHex2]]
  rw [goParseUintHex8_sprintfHex2 _ hlt]
  simp

/-- C8 witness: the round trip on the concrete payload PSRF100. -/
theorem C8_witness :
    validateNMEAChecksum (makeNMEACmd ("PSRF100".toList)) = ("PSRF100".toList, true) :=
  C8_roundTrip ("PSRF100".toList) (by decide) (by decide) (by decide)

theorem coreEq_refl (a : SituationData) : coreEq a a := rfl

theorem coreEq_trans {a b c : SituationData} (h1 : coreEq a b) (h2 : coreEq b c) :
    coreEq a c := h1.trans h2

/-- Constellation maintenance touches only the three satellite counters. -/
theorem uc_core (now : Int) (st : GpsState) :
    coreEq (updateConstellation now st).situation st.situation := rfl

/-- One GSA satellite upsert touches only the counters. -/
theorem gsaProcessSat_core (now : Int) (svS : List Char)
    (acc : Nat × Bool × Bool × GpsState) :
    coreEq (gsaProcessSat now svS acc).2.2.2.situation acc.2.2.2.situation := by
  cases hgo : goAtoi svS with
  | none => simp only [gsaProcessSat, hgo]; exact coreEq_refl _
  | some sv => simp only [gsaProcessSat, hgo]; exact uc_core now _

/-- The GSA satellite loop touches only the counters. -/
theorem gsaLoop_core (now : Int) (l : List (List Char)) :
    ∀ acc, coreEq (gsaLoop now l acc).2.2.2.situation acc.2.2.2.situation := by
  induction l with
  | nil => intro acc; exact coreEq_refl _
  | cons s rest ih =>
    intro acc
    exact coreEq_trans (ih _) (gsaProcessSat_core now s acc)

/-- The PUBX,03 satellite loop touches only the counters. -/
theorem pubx03Loop_core (now : Int) (x : List (List Char)) :
    ∀ k i st, coreEq (pubx03Loop now x k i st).2.situation st.situation := by
  intro k
  induction k with
  | zero => intro i st; exact coreEq_refl _
  | succ k ih =>
    intro i st
    cases hgo : goAtoi (fget x (3 + 6 * i)) with
    | none => simp only [pubx03Loop, hgo]; exact coreEq_refl _
    | some sv =>
      simp only [pubx03Loop, hgo]
      exact coreEq_trans (ih _ _) (uc_core now _)

/-- One accepted GSV satellite block touches only the counters. -/
theorem gsvProcessSat_core (now : Int) (a b c d : List Char) (st st' : GpsState)
    (h : gsvProcessSat now a b c d st = some st') :
    coreEq st'.situation st.situation := by
  unfold gsvProcessSat at h
  cases hgo : goAtoi a with
  | none => rw [hgo] at h; cases h
  | some sv =>
    rw [hgo] at h
    cases h
    exact uc_core now _

/-- The GSV satellite loop touches only the counters. -/
theorem gsvLoop_core (now : Int) (x : List (List Char)) :
    ∀ k i st, coreEq (gsvLoop now x k i st).2.situation st.situation := by
  intro k
  induction k with
  | zero => intro i st; exact coreEq_refl _
  | succ k ih =>
    intro i st
    cases hps : gsvProcessSat now (fget x (4 + 4 * i)) (fget x (5 + 4 * i))
        (fget x (6 + 4 * i)) (fget x (7 + 4 * i)) st with
    | none => simp only [gsvLoop, hps]; exact coreEq_refl _
    | some stn =>
      simp only [gsvLoop, hps]
      exact coreEq_trans (ih _ _) (gsvProcessSat_core now _ _ _ _ _ _ hps)

/-- A rejected PUBX,00 sentence leaves the state untouched. -/
theorem handlePUBX00_false (now : Int) (x : List (List Char)) (st st' : GpsState)
    (h : handlePUBX00 now x st = (false, st')) : st' = st := by
  simp only [handlePUBX00] at h
  repeat' split at h
  all_goals
    (injection h with h1 h2
     first
       | exact Bool.noConfusion h1
       | exact h2.symm)

/-- A rejected VTG sentence leaves the state untouched. -/
theorem handleVTG_false (now : Int) (x : List (List Char)) (st st' : GpsState)
    (h : handleVTG now x st = (false, st')) : st' = st := by
  simp only [handleVTG] at h
  repeat' split at h
  all_goals
    (injection h with h1 h2
     first
       | exact Bool.noConfusion h1
       | exact h2.symm)

/-- A rejected GGA sentence leaves the state untouched. -/
theorem handleGGA_false (now : Int) (x : List (List Char)) (st st' : GpsState)
    (h : handleGGA now x st = (false, st')) : st' = st := by
  simp only [handleGGA] at h
  repeat' split at h
  all_goals
    (injection h with h1 h2
     first
       | exact Bool.noConfusion h1
       | exact h2.symm)

/-- A rejected RMC sentence leaves the state untouched. -/
theorem handleRMC_false (now : Int) (x : List (List Char)) (st st' : GpsState)
    (h : handleRMC now x st = (false, st')) : st' = st := by
  simp only [handleRMC] at h
  repeat' split at h
  all_goals
    (injection h with h1 h2
     first
       | exact Bool.noConfusion h1
       | exact h2.symm)

/-- A rejected PUBX,04 sentence leaves the state untouched. -/
theorem handlePUBX04_false (now : Int) (x : List (List Char)) (st st' : GpsState)
    (h : handlePUBX04 now x st = some (false, st')) : st' = st := by
  simp only [handlePUBX04] at h
  repeat' split at h
  all_goals first
    | exact Option.noConfusion h
    | (injection h with h
       injection h with h1 h2
       first
         | exact Bool.noConfusion h1
         | exact h2.symm)

/-- A rejected GSA sentence can change only the satellite counters. -/
theorem handleGSA_core (now : Int) (x : List (List Char)) (st st' : GpsState)
    (h : handleGSA now x st = (false, st')) :
    coreEq st'.situation st.situation := by
  simp only [handleGSA] at h
  repeat' split at h
  all_goals
    (injection h with h1 h2
     first
       | exact Bool.noConfusion h1
       | (rw [← h2]
          first
            | exact coreEq_refl _
            | exact gsaLoop_core now _ _))

/-- A rejected PUBX,03 sentence can change only the satellite counters. -/
theorem handlePUBX03_core (now : Int) (x : List (List Char)) (st st' : GpsState)
    (h : handlePUBX03 now x st = (false, st')) :
    coreEq st'.situation st.situation := by
  simp only [handlePUBX03] at h
  repeat' split at h
  all_goals first
    | (injection h with h1 h2
       first
         | exact Bool.noConfusion h1
         | (rw [← h2]; exact coreEq_refl _))
    | (have h2 : (pubx03Loop now x _ _ _).2 = st' := (congrArg Prod.snd h).trans rfl
       rw [← h2]
       exact coreEq_trans (pubx03Loop_core now x _ _ _) rfl)

/-- A rejected GSV sentence can change only the satellite counters. -/
theorem handleGSV_core (now : Int) (x : List (List Char)) (st st' : GpsState)
    (h : handleGSV now x st = (false, st')) :
    coreEq st'.situation st.situation := by
  simp only [handleGSV] at h
  repeat' split at h
  all_goals first
    | (injection h with h1 h2
       first
         | exact Bool.noConfusion h1
         | (rw [← h2]; exact coreEq_refl _))
    | (have h2 : (gsvLoop now x _ _ _).2 = st' := (congrArg Prod.snd h).trans rfl
       rw [← h2]
       exact coreEq_trans (gsvLoop_core now x _ _ _) rfl)

/-- A rejecting dispatch can change only the counters relative to the state
it was entered with. -/
theorem dispatchNMEA_core (now : Int) (x : List (List Char)) (st st' : GpsState)
    (h : dispatchNMEA now x st = some (false, st')) :
    coreEq st'.situation st.situation := by
  simp only [dispatchNMEA] at h
  repeat' split at h
  all_goals first
    | exact Option.noConfusion h
    | (injection h with h
       first
         | (rw [handlePUBX00_false now _ _ _ h]; exact coreEq_refl _)
         | (rw [handleVTG_false now _ _ _ h]; exact coreEq_refl _)
         | (rw [handleGGA_false now _ _ _ h]; exact coreEq_refl _)
         | (rw [handleRMC_false now _ _ _ h]; exact coreEq_refl _)
         | exact handleGSA_core now _ _ _ h
         | exact handlePUBX03_core now _ _ _ h
         | exact handleGSV_core now _ _ _ h
         | (injection h with h1 h2
            rw [← h2]
            exact coreEq_refl _))
    | (rw [handlePUBX04_false now _ _ _ h]; exact coreEq_refl _)

/-- C1 amended: whenever processNMEALine rejects a sentence (returns false
without panicking), every situation field except Satellites,
SatellitesTracked, SatellitesSeen, LastValidNMEAMessageTime and
LastValidNMEAMessage keeps its prior value.  A rejected PUBX,03 that passes
the length check has already written SatellitesTracked and committed the
satellites preceding the failing field, and a rejected GSA or GSV sentence
has already run the constellation maintenance, so the three counters are not
preserved in general. -/
theorem C1_amended_rejects (now : Int) (l : List Char) (st st' : GpsState)
    (h : processNMEALine now l st = some (false, st')) :
    coreEq st'.situation st.situation := by
  unfold processNMEALine at h
  split at h
  · injection h with h
    injection h with h1 h2
    rw [← h2]
    exact coreEq_refl _
  · exact coreEq_trans (dispatchNMEA_core now _ _ _ h) rfl

/-- C1 witness: the amended theorem applied to a sentence rejected at the
checksum stage. -/
theorem C1_witness : coreEq st0.situation st0.situation :=
  C1_amended_rejects 0 ("bad".toList) st0 st0 rfl

end Stratux
